import Mathlib

/-!
Verification of the Canvas-Tile-Layer core (src/js/CanvasLayer.js) against its
natural-language specification.  The JavaScript is shallowly embedded: pixel
channel values are Nat (the buffers are Uint8ClampedArray, so every entry is a
byte), JS strings are Lean Strings, parseInt's NaN result is Option.none, and
the stateful layer object is explicit state passing.
-/

set_option maxRecDepth 100000

/-- pad (lines 101-104): prepends "00" to the decimal rendering of the number
and keeps the last three characters (String.prototype.slice with a negative-free
start index str.length - 3). -/
def pad (number : Nat) : String :=
  let str := "00" ++ toString number
  ⟨str.data.drop (str.data.length - 3)⟩

/-- JS String.prototype.slice start stop for the in-bounds, nonnegative indices
this module uses: the characters at positions start..stop-1. -/
def jsSlice (s : String) (start stop : Nat) : String :=
  ⟨(s.data.drop start).take (stop - start)⟩

/-- Longest leading run of decimal digit characters, as consumed by a radix-10
parseInt. -/
def leadingDigits : List Char → List Char
  | [] => []
  | c :: cs => if c.isDigit then c :: leadingDigits cs else []

/-- Value of a list of decimal digit characters. -/
def digitsToNat (ds : List Char) : Nat :=
  ds.foldl (fun acc c => acc * 10 + (c.toNat - 48)) 0

/-- JS parseInt on the strings this module produces (no sign, no whitespace, no
radix argument): the value of the longest leading digit run, and NaN (none)
when the string does not start with a digit. -/
def parseIntJS (s : String) : Option Nat :=
  match leadingDigits s.data with
  | [] => none
  | ds => some (digitsToNat ds)

/-- Result record of decodeDate.  confidence and intensity are Option because a
parseInt that returns NaN propagates NaN into them; date is a plain Nat because
it is built from channel arithmetic only. -/
structure DecodedPixel where
  confidence : Option Int
  intensity : Option Nat
  date : Nat
deriving DecidableEq, Repr

/-- decodeDate (lines 66-96).  The source receives the 4-entry pixel array but
reads only channels 0-2; the alpha channel is never used, so the embedding
takes the three channels it reads.  parseInt(totalDays / 365) stringifies the
nonnegative quotient (plain decimal in this range) and truncates it, which is
exactly Nat division. -/
def decodeDate (r g b : Nat) : DecodedPixel :=
  let totalDays := r * 255 + g
  let yearAsInt := totalDays / 365 + 15
  let year := yearAsInt * 1000
  let julianDay := totalDays % 365
  let date := year + julianDay
  let band3Str := pad b
  let confidence := (parseIntJS band3Str).map (fun n => (n : Int) - 1)
  let rawIntensity := parseIntJS (jsSlice band3Str 1 3)
  let intensity := rawIntensity.map (fun ri => if ri * 50 > 255 then 255 else ri * 50)
  { confidence := confidence, intensity := intensity, date := date }

/-- filterData (lines 286-305).  data is an ImageData pixel buffer
(Uint8ClampedArray); the loop walks it in steps of 4 and writes only index
i + 3.  A trailing group shorter than 4 channels is left unchanged, as in the
source: reading past the end gives undefined, every arithmetic result and the
date comparison then involve NaN (comparison false), and the store to the
out-of-range alpha index of a typed array is a no-op.  A NaN intensity stored
into a Uint8ClampedArray becomes 0, hence intensity.getD 0. -/
def filterData (minDateValue maxDateValue : Nat) : List Nat → List Nat
  | r :: g :: b :: a :: rest =>
    let values := decodeDate r g b
    r :: g :: b ::
      (if values.date ≥ minDateValue ∧ values.date ≤ maxDateValue
       then values.intensity.getD 0
       else 0) :: filterData minDateValue maxDateValue rest
  | rest => rest

/-- The decode of the i-th 4-channel group of a buffer, exactly as filterData
computes it at byte offset 4*i (getD's default is only reachable when the
group is out of range). -/
def decodedGroup (data : List Nat) (i : Nat) : DecodedPixel :=
  decodeDate (data.getD (4 * i) 0) (data.getD (4 * i + 1) 0) (data.getD (4 * i + 2) 0)

/-- Projection of decodeDate: the confidence field is parseInt of the padded
blue band, minus one. -/
theorem decodeDate_confidence (r g b : Nat) :
    (decodeDate r g b).confidence = (parseIntJS (pad b)).map (fun n => (n : Int) - 1) := rfl

/-- Projection of decodeDate: the intensity field is the clamped 50-fold of
parseInt of characters 1-2 of the padded blue band. -/
theorem decodeDate_intensity (r g b : Nat) :
    (decodeDate r g b).intensity =
      (parseIntJS (jsSlice (pad b) 1 3)).map (fun ri => if ri * 50 > 255 then 255 else ri * 50) := rfl

/-- Projection of decodeDate: the date field in closed form. -/
theorem decodeDate_date (r g b : Nat) :
    (decodeDate r g b).date = ((r * 255 + g) / 365 + 15) * 1000 + (r * 255 + g) % 365 := rfl

/-- For every byte value the padded blue band parses back to itself. -/
theorem parseIntJS_pad : ∀ b < 256, parseIntJS (pad b) = some b := by decide

/-- For every byte value characters 1-2 of the padded blue band parse to the
last two decimal digits. -/
theorem parseIntJS_pad_slice : ∀ b < 256, parseIntJS (jsSlice (pad b) 1 3) = some (b % 100) := by
  decide

/-- For every byte value pad yields exactly three decimal digit characters. -/
theorem pad_three_digits : ∀ b < 256, (pad b).data.length = 3 ∧ (pad b).data.all Char.isDigit = true := by
  decide

/-- Indexing a list four positions below its first four entries. -/
theorem getD_cons4 (p q s t d : Nat) (rest : List Nat) (n : Nat) :
    (p :: q :: s :: t :: rest).getD (n + 4) d = rest.getD n d := by
  show (p :: q :: s :: t :: rest).getD (n + 1 + 1 + 1 + 1) d = rest.getD n d
  simp [List.getD_cons_succ]

/-- Shifting decodedGroup across one leading 4-channel group. -/
theorem decodedGroup_cons (r g b a : Nat) (rest : List Nat) (i : Nat) :
    decodedGroup (r :: g :: b :: a :: rest) (i + 1) = decodedGroup rest i := by
  unfold decodedGroup
  have e0 : 4 * (i + 1) = 4 * i + 4 := by ring
  have e1 : 4 * (i + 1) + 1 = (4 * i + 1) + 4 := by ring
  have e2 : 4 * (i + 1) + 2 = (4 * i + 2) + 4 := by ring
  rw [e1, e2, e0, getD_cons4, getD_cons4, getD_cons4]

/-- The alpha entry filterData leaves at offset 4*i+3, in closed form. -/
theorem filterData_getD_group (minD maxD : Nat) :
    ∀ (data : List Nat) (i : Nat), 4 * i + 3 < data.length →
      (filterData minD maxD data).getD (4 * i + 3) 0 =
        (if (decodedGroup data i).date ≥ minD ∧ (decodedGroup data i).date ≤ maxD
         then (decodedGroup data i).intensity.getD 0
         else 0)
  | [], i, h => absurd h (by simp)
  | [x], i, h => absurd h (by simp only [List.length_cons, List.length_nil]; omega)
  | [x, y], i, h => absurd h (by simp only [List.length_cons, List.length_nil]; omega)
  | [x, y, z], i, h => absurd h (by simp only [List.length_cons, List.length_nil]; omega)
  | r :: g :: b :: a :: rest, 0, h => rfl
  | r :: g :: b :: a :: rest, i + 1, h => by
    have h' : 4 * i + 3 < rest.length := by
      simp only [List.length_cons] at h; omega
    have e3 : 4 * (i + 1) + 3 = (4 * i + 3) + 4 := by ring
    simp only [filterData]
    rw [e3, getD_cons4, decodedGroup_cons]
    exact filterData_getD_group minD maxD rest i h'

/-- filterData returns a buffer of the same length. -/
theorem filterData_length (minD maxD : Nat) :
    ∀ data : List Nat, (filterData minD maxD data).length = data.length
  | [] => rfl
  | [x] => rfl
  | [x, y] => rfl
  | [x, y, z] => rfl
  | r :: g :: b :: a :: rest => by
    simp only [filterData, List.length_cons]
    rw [filterData_length minD maxD rest]

/-- filterData never changes an entry whose offset is not 3 mod 4. -/
theorem filterData_getD_preserve (minD maxD : Nat) :
    ∀ (data : List Nat) (i : Nat), i % 4 ≠ 3 →
      (filterData minD maxD data).getD i 0 = data.getD i 0
  | [], i, h => rfl
  | [x], i, h => rfl
  | [x, y], i, h => rfl
  | [x, y, z], i, h => rfl
  | r :: g :: b :: a :: rest, 0, h => rfl
  | r :: g :: b :: a :: rest, 1, h => rfl
  | r :: g :: b :: a :: rest, 2, h => rfl
  | r :: g :: b :: a :: rest, 3, h => absurd rfl h
  | r :: g :: b :: a :: rest, n + 4, h => by
    have h' : n % 4 ≠ 3 := by omega
    simp only [filterData]
    rw [getD_cons4, getD_cons4]
    exact filterData_getD_preserve minD maxD rest n h'

/-- Running filterData a second time reproduces the first pass: the decode
reads only the unchanged R, G, B channels, so the alpha written the second
time is the same. -/
theorem filterData_idem (minD maxD : Nat) :
    ∀ data : List Nat,
      filterData minD maxD (filterData minD maxD data) = filterData minD maxD data
  | [] => rfl
  | [x] => rfl
  | [x, y] => rfl
  | [x, y, z] => rfl
  | r :: g :: b :: a :: rest => by
    simp only [filterData]
    rw [filterData_idem minD maxD rest]

/-- C1: for every 4-channel group of the buffer, filterData writes the decoded
intensity into the alpha channel exactly when minDateValue <= decoded date <=
maxDateValue (both bounds inclusive) and writes 0 otherwise; in particular a
decoded date of minDateValue - 1 or maxDateValue + 1 forces alpha 0. -/
theorem filterData_alpha_inRange (minD maxD : Nat) (data : List Nat) (i : Nat)
    (h : 4 * i + 3 < data.length) :
    ((filterData minD maxD data).getD (4 * i + 3) 0 =
      (if (decodedGroup data i).date ≥ minD ∧ (decodedGroup data i).date ≤ maxD
       then (decodedGroup data i).intensity.getD 0
       else 0))
    ∧ (((decodedGroup data i).date + 1 = minD ∨ (decodedGroup data i).date = maxD + 1) →
        (filterData minD maxD data).getD (4 * i + 3) 0 = 0) := by
  have hq := filterData_getD_group minD maxD data i h
  refine ⟨hq, fun hd => ?_⟩
  rw [hq]
  have hc : ¬((decodedGroup data i).date ≥ minD ∧ (decodedGroup data i).date ≤ maxD) := by
    omega
  exact if_neg hc

theorem filterData_alpha_inRange_witness :
    (4 * 1 + 3 < ([0, 1, 131, 7, 200, 0, 131, 9] : List Nat).length)
    ∧ (((filterData 15000 16365 [0, 1, 131, 7, 200, 0, 131, 9]).getD (4 * 1 + 3) 0 =
        (if (decodedGroup [0, 1, 131, 7, 200, 0, 131, 9] 1).date ≥ 15000
            ∧ (decodedGroup [0, 1, 131, 7, 200, 0, 131, 9] 1).date ≤ 16365
         then (decodedGroup [0, 1, 131, 7, 200, 0, 131, 9] 1).intensity.getD 0
         else 0))
      ∧ (((decodedGroup [0, 1, 131, 7, 200, 0, 131, 9] 1).date + 1 = 15000
            ∨ (decodedGroup [0, 1, 131, 7, 200, 0, 131, 9] 1).date = 16365 + 1) →
          (filterData 15000 16365 [0, 1, 131, 7, 200, 0, 131, 9]).getD (4 * 1 + 3) 0 = 0)) :=
  ⟨by decide, filterData_alpha_inRange 15000 16365 [0, 1, 131, 7, 200, 0, 131, 9] 1 (by decide)⟩

/-- C6: filterData leaves every R, G and B channel unchanged (only alpha
offsets, 3 mod 4, are written), returns a buffer of the same length, and a
second pass reproduces the first (so R, G, B are also unchanged from the
first pass). -/
theorem filterData_rgb_length_idem (minD maxD : Nat) (data : List Nat) :
    ((filterData minD maxD data).length = data.length)
    ∧ (∀ i : Nat, i % 4 ≠ 3 → (filterData minD maxD data).getD i 0 = data.getD i 0)
    ∧ (filterData minD maxD (filterData minD maxD data) = filterData minD maxD data) :=
  ⟨filterData_length minD maxD data,
   fun i hi => filterData_getD_preserve minD maxD data i hi,
   filterData_idem minD maxD data⟩

theorem filterData_rgb_length_idem_witness :
    ((2 : Nat) % 4 ≠ 3)
    ∧ (filterData 15000 16365 [0, 1, 131, 7]).getD 2 0 = ([0, 1, 131, 7] : List Nat).getD 2 0 :=
  ⟨by decide, (filterData_rgb_length_idem 15000 16365 [0, 1, 131, 7]).2.1 2 (by decide)⟩

/-- C2 counterexample: at the realistic blue-channel byte 131 (confidence
class 1, raw intensity 31) the decoder returns confidence 130, which is not
in {0,1}; the claim that confidence always lies in {0,1} is false. -/
theorem decode_confidence_not_binary :
    (decodeDate 0 0 131).confidence = some 130
    ∧ ¬((130 : Int) = 0 ∨ (130 : Int) = 1) := by
  refine ⟨?_, by decide⟩
  rw [decodeDate_confidence, parseIntJS_pad 131 (by omega)]
  rfl

/-- C2 amended: for byte blue-channel values the confidence field equals
parseInt of the zero-left-padded 3-digit blue-channel string minus 1, which is
b - 1; it lies in {0,1} exactly when the blue channel holds the encoding's
confidence class value 1 or 2 alone. -/
theorem decode_confidence_formula (r g b : Nat) (hb : b < 256) :
    ((decodeDate r g b).confidence = some ((b : Int) - 1))
    ∧ (((b : Int) - 1 = 0 ∨ (b : Int) - 1 = 1) ↔ (b = 1 ∨ b = 2)) := by
  constructor
  · rw [decodeDate_confidence, parseIntJS_pad b hb]
    rfl
  · omega

theorem decode_confidence_formula_witness :
    ((2 : Nat) < 256)
    ∧ (((decodeDate 0 0 2).confidence = some ((2 : Int) - 1))
       ∧ (((2 : Int) - 1 = 0 ∨ (2 : Int) - 1 = 1) ↔ ((2 : Nat) = 1 ∨ (2 : Nat) = 2))) :=
  ⟨by decide, decode_confidence_formula 0 0 2 (by decide)⟩

/-- C3 counterexample: decoding the pixel [r=0, g=1, b=31, a=255] gives
date 15001 (totalDays = 1 lands on julian day 1 of year offset 15), not the
claimed 15000. -/
theorem decode_known_vector_date_ne :
    (decodeDate 0 1 31).date = 15001 ∧ (15001 : Nat) ≠ 15000 := ⟨rfl, by decide⟩

/-- C3 amended: decoding [r=0, g=1, b=31, a=255] yields totalDays = 1,
yearOffset = 15 and date = 15001; in general date =
(floor(totalDays / 365) + 15) * 1000 + totalDays mod 365 with
totalDays = r * 255 + g. -/
theorem decode_known_vector_amended :
    ((decodeDate 0 1 31).date = (0 * 255 + 1 / 365 + 15) * 1000 + 1
      ∧ (decodeDate 0 1 31).date = 15001)
    ∧ (∀ r g b : Nat, (decodeDate r g b).date
        = ((r * 255 + g) / 365 + 15) * 1000 + (r * 255 + g) % 365) :=
  ⟨⟨rfl, rfl⟩, fun r g b => decodeDate_date r g b⟩

/-- C10: the decoder is total on byte channel values: pad always yields a
3-digit decimal string, both parseInt calls succeed (parseInt(pad b) = b and
the 2-character slice parses to b mod 100), so confidence is b - 1 and
intensity is the clamped 50-fold of b mod 100 -- no decode-failure is
reachable. -/
theorem decode_total_on_bytes (r g b : Nat) (hr : r < 256) (hg : g < 256) (hb : b < 256) :
    ((pad b).data.length = 3)
    ∧ ((pad b).data.all Char.isDigit = true)
    ∧ (parseIntJS (pad b) = some b)
    ∧ (parseIntJS (jsSlice (pad b) 1 3) = some (b % 100))
    ∧ ((decodeDate r g b).confidence = some ((b : Int) - 1))
    ∧ ((decodeDate r g b).intensity =
        some (if (b % 100) * 50 > 255 then 255 else (b % 100) * 50)) := by
  obtain ⟨hlen, hdig⟩ := pad_three_digits b hb
  refine ⟨hlen, hdig, parseIntJS_pad b hb, parseIntJS_pad_slice b hb, ?_, ?_⟩
  · rw [decodeDate_confidence, parseIntJS_pad b hb]; rfl
  · rw [decodeDate_intensity, parseIntJS_pad_slice b hb]; rfl

theorem decode_total_on_bytes_witness :
    ((0 : Nat) < 256 ∧ (0 : Nat) < 256 ∧ (131 : Nat) < 256)
    ∧ (((pad 131).data.length = 3)
       ∧ ((pad 131).data.all Char.isDigit = true)
       ∧ (parseIntJS (pad 131) = some 131)
       ∧ (parseIntJS (jsSlice (pad 131) 1 3) = some (131 % 100))
       ∧ ((decodeDate 0 0 131).confidence = some ((131 : Int) - 1))
       ∧ ((decodeDate 0 0 131).intensity =
           some (if (131 % 100) * 50 > 255 then 255 else (131 % 100) * 50))) :=
  ⟨by decide, decode_total_on_bytes 0 0 131 (by decide) (by decide) (by decide)⟩

/-- The per-tile stat record pushed by getTileStats: x is the column, y the
row, z the zoom level. -/
structure TileStat where
  x : Int
  y : Int
  z : Int
deriving DecidableEq, Repr

/-- The values visited by a JS loop for (v = lo; v <= hi; v++): lo, lo+1, ...,
hi, and nothing when lo > hi. -/
def intRangeIncl (lo hi : Int) : List Int :=
  (List.range (hi + 1 - lo).toNat).map (fun k : Nat => lo + (k : Int))

/-- getTileStats (lines 35-43): the nested column-then-row loops pushing
one { x: col, y: row, z: level } record per iteration. -/
def getTileStats (colMin colMax rowMin rowMax level : Int) : List TileStat :=
  (intRangeIncl colMin colMax).flatMap
    (fun col => (intRangeIncl rowMin rowMax).map (fun row => ⟨col, row, level⟩))

/-- Length of an inclusive integer range. -/
theorem intRangeIncl_length (lo hi : Int) :
    (intRangeIncl lo hi).length = (hi + 1 - lo).toNat := by
  rw [intRangeIncl, List.length_map, List.length_range]

/-- Lookup in an inclusive integer range. -/
theorem intRangeIncl_getElem? (lo hi : Int) (k : Nat) (hk : k < (hi + 1 - lo).toNat) :
    (intRangeIncl lo hi)[k]? = some (lo + (k : Int)) := by
  rw [intRangeIncl, List.getElem?_map, List.getElem?_range hk]
  rfl

/-- Membership in an inclusive integer range. -/
theorem intRangeIncl_mem (lo hi a : Int) : a ∈ intRangeIncl lo hi ↔ lo ≤ a ∧ a ≤ hi := by
  constructor
  · intro ha
    obtain ⟨k, hk, rfl⟩ := List.mem_map.mp ha
    have hk' := List.mem_range.mp hk
    omega
  · intro h
    exact List.mem_map.mpr ⟨(a - lo).toNat, List.mem_range.mpr (by omega), by omega⟩

/-- Length of a flatMap all of whose blocks have the same length. -/
theorem flatMap_length_const {α β : Type} (f : α → List β) (n : Nat)
    (hf : ∀ a, (f a).length = n) :
    ∀ l : List α, (l.flatMap f).length = l.length * n := by
  intro l
  induction l with
  | nil => simp
  | cons a l ih =>
    simp only [List.flatMap_cons, List.length_append, List.length_cons, hf, ih]
    ring

/-- Lookup in a flatMap all of whose blocks have the same length: position
i * n + j with j < n lands in block i at offset j. -/
theorem flatMap_getElem?_const {α β : Type} (f : α → List β) (n : Nat)
    (hf : ∀ a, (f a).length = n) :
    ∀ (l : List α) (i j : Nat), j < n →
      (l.flatMap f)[i * n + j]? = l[i]?.bind (fun a => (f a)[j]?) := by
  intro l
  induction l with
  | nil => intro i j hj; simp
  | cons a l ih =>
    intro i j hj
    cases i with
    | zero =>
      simp only [List.flatMap_cons, Nat.zero_mul, Nat.zero_add, List.getElem?_append,
        List.getElem?_cons_zero, Option.some_bind]
      rw [if_pos (by rw [hf]; exact hj)]
    | succ i =>
      have e : (i + 1) * n + j = (f a).length + (i * n + j) := by rw [hf]; ring
      simp only [List.flatMap_cons, List.getElem?_cons_succ]
      rw [e, List.getElem?_append_right (by omega), Nat.add_sub_cancel_left]
      exact ih i j hj

/-- C7: getTileStats yields exactly the Cartesian product of the inclusive
column and row ranges, in column-major order (block i is column colMin + i,
offset j inside a block is row rowMin + j), with one record per pair; equal
bounds give exactly one tile and an inverted bound gives the empty list. -/
theorem getTileStats_cartesian_colMajor (cmin cmax rmin rmax z : Int) :
    (∀ t : TileStat, t ∈ getTileStats cmin cmax rmin rmax z ↔
        (cmin ≤ t.x ∧ t.x ≤ cmax ∧ rmin ≤ t.y ∧ t.y ≤ rmax ∧ t.z = z))
    ∧ ((getTileStats cmin cmax rmin rmax z).length
        = (cmax + 1 - cmin).toNat * (rmax + 1 - rmin).toNat)
    ∧ (∀ i j : Nat, i < (cmax + 1 - cmin).toNat → j < (rmax + 1 - rmin).toNat →
        (getTileStats cmin cmax rmin rmax z)[i * (rmax + 1 - rmin).toNat + j]?
          = some ⟨cmin + (i : Int), rmin + (j : Int), z⟩)
    ∧ ((cmax < cmin ∨ rmax < rmin) → getTileStats cmin cmax rmin rmax z = []) := by
  have hlen : ∀ c : Int,
      ((intRangeIncl rmin rmax).map (fun row => (⟨c, row, z⟩ : TileStat))).length
        = (rmax + 1 - rmin).toNat := by
    intro c; simp [intRangeIncl_length]
  refine ⟨?_, ?_, ?_, ?_⟩
  · intro t
    simp only [getTileStats, List.mem_flatMap, List.mem_map, intRangeIncl_mem]
    constructor
    · rintro ⟨c, hc, row, hrow, rfl⟩
      exact ⟨hc.1, hc.2, hrow.1, hrow.2, rfl⟩
    · rintro ⟨h1, h2, h3, h4, h5⟩
      exact ⟨t.x, ⟨h1, h2⟩, t.y, ⟨h3, h4⟩, by cases t; simp at h5; rw [h5]⟩
  · rw [getTileStats, flatMap_length_const _ _ hlen, intRangeIncl_length]
  · intro i j hi hj
    rw [getTileStats, flatMap_getElem?_const _ _ hlen _ i j hj,
      intRangeIncl_getElem? cmin cmax i hi, Option.some_bind, List.getElem?_map,
      intRangeIncl_getElem? rmin rmax j hj]
    rfl
  · intro hcase
    rcases hcase with hc | hr
    · have h0 : (cmax + 1 - cmin).toNat = 0 := by omega
      simp [getTileStats, intRangeIncl, h0]
    · have h0 : (rmax + 1 - rmin).toNat = 0 := by omega
      simp [getTileStats, intRangeIncl, h0]

theorem getTileStats_cartesian_colMajor_witness :
    ((1 : Nat) < ((1 : Int) + 1 - 0).toNat ∧ (2 : Nat) < ((2 : Int) + 1 - 0).toNat)
    ∧ (getTileStats 0 1 0 2 5)[1 * ((2 : Int) + 1 - 0).toNat + 2]?
        = some ⟨0 + ((1 : Nat) : Int), 0 + ((2 : Nat) : Int), 5⟩ :=
  ⟨by decide,
   (getTileStats_cartesian_colMajor 0 1 0 2 5).2.2.1 1 2 (by decide) (by decide)⟩

/-- The host map's tile grid description (map.__tileInfo): projection-unit
origin and tile pixel size.  Map-unit quantities are embedded as rationals. -/
structure TileInfo where
  originX : ℚ
  originY : ℚ
  rows : ℚ
  cols : ℚ
deriving DecidableEq, Repr

/-- The host map state _update reads: resolution, level and extent. -/
structure MapView where
  resolution : ℚ
  level : Int
  xmin : ℚ
  xmax : ℚ
  ymin : ℚ
  ymax : ℚ
  tileInfo : TileInfo
deriving DecidableEq, Repr

/-- getTileRow (lines 17-21): Math.floor((origin.y - latitude) / (rows *
resolution)).  The level argument is received but unused, as in the source. -/
def getTileRow (tileInfo : TileInfo) (level : Int) (latitude resolution : ℚ) : Int :=
  Rat.floor ((tileInfo.originY - latitude) / (tileInfo.rows * resolution))

/-- getTileColumn (lines 26-30): Math.floor((longitude - origin.x) / (cols *
resolution)). -/
def getTileColumn (tileInfo : TileInfo) (level : Int) (longitude resolution : ℚ) : Int :=
  Rat.floor ((longitude - tileInfo.originX) / (tileInfo.cols * resolution))

/-- The canvas element: its CSS display state and its pixel content (flat RGBA
bytes); clearRect(0, 0, width, height) zeroes every entry. -/
structure Canvas where
  displayBlock : Bool
  content : List Nat
deriving DecidableEq, Repr

/-- The layer object state the visibility methods touch: this.visible and
this._element (none before _setMap runs). -/
structure LayerObj where
  visible : Bool
  element : Option Canvas
deriving DecidableEq, Repr

/-- _clear (lines 219-226): returns untouched when the layer is not visible or
has no element, otherwise erases the whole canvas. -/
def _clear (l : LayerObj) : LayerObj :=
  if l.visible = false ∨ l.element = none then l
  else
    match l.element with
    | none => l
    | some c => { l with element := some { c with content := List.replicate c.content.length 0 } }

/-- _update (lines 196-214): returns the batch of getTile dispatches (one per
stat of getTileStats); an invisible layer dispatches nothing.  Note rowMin is
computed from ymax and rowMax from ymin, as in the source. -/
def _update (l : LayerObj) (m : MapView) : List TileStat :=
  if l.visible = false then []
  else
    let colMin := getTileColumn m.tileInfo m.level m.xmin m.resolution
    let colMax := getTileColumn m.tileInfo m.level m.xmax m.resolution
    let rowMin := getTileRow m.tileInfo m.level m.ymax m.resolution
    let rowMax := getTileRow m.tileInfo m.level m.ymin m.resolution
    getTileStats colMin colMax rowMin rowMax m.level

/-- hide (lines 172-180): with an element present it sets display none, sets
visible to false, then calls _clear.  (The source sets this.visible = false
before the _clear call, so _clear's visibility guard fires.) -/
def hide (l : LayerObj) : LayerObj :=
  match l.element with
  | none => l
  | some c =>
    let l1 : LayerObj := { l with element := some { c with displayBlock := false }, visible := false }
    _clear l1

/-- show (lines 160-166; show is a Lean keyword, hence the primed name): with
an element present it sets display block, sets visible to true, and calls
_update; the returned list is the batch of tile dispatches _update issues. -/
def show' (l : LayerObj) (m : MapView) : LayerObj × List TileStat :=
  match l.element with
  | none => (l, [])
  | some c =>
    let l1 : LayerObj := { l with element := some { c with displayBlock := true }, visible := true }
    (l1, _update l1 m)

/-- The layer fields the constructor (lines 112-120) initialises. -/
structure ConstructedLayer where
  minDateValue : Nat
  maxDateValue : Nat
  visible : Bool
  loaded : Bool
deriving DecidableEq, Repr

/-- JS truthiness of options.visible || true: options.visible is undefined
(none), false, or true; a falsy left operand yields the right operand. -/
def visibleOrTrue : Option Bool → Bool
  | some v => if v then v else true
  | none => true

/-- constructor (lines 112-120): fixed date bounds, visible from
options.visible || true, loaded set. -/
def constructorInit (optionsVisible : Option Bool) : ConstructedLayer :=
  { minDateValue := 15000
    maxDateValue := 16365
    visible := visibleOrTrue optionsVisible
    loaded := true }

/-- The decode-and-draw work the successful branch of getTile's
onreadystatechange callback schedules (blob, object URL, Image onload,
drawToCanvas with these coordinates). -/
structure TileDrawRequest where
  level : Int
  row : Int
  col : Int
deriving DecidableEq, Repr

/-- The onreadystatechange callback of getTile (lines 243-254): its whole body
is guarded by readyState == 4 && status == 200 and it has no else branch, so
any other transport outcome produces no action at all. -/
def getTileOnReadyStateChange (readyState status : Nat) (level row col : Int) :
    Option TileDrawRequest :=
  if readyState == 4 && status == 200 then some { level := level, row := row, col := col }
  else none

/-- A concrete canvas with nonzero content, for exercising the visibility
methods. -/
def canvas0 : Canvas := { displayBlock := false, content := [9, 9, 9, 9] }

/-- A concrete attached, hidden layer over canvas0. -/
def layer0 : LayerObj := { visible := false, element := some canvas0 }

/-- A concrete host map view. -/
def mview0 : MapView :=
  { resolution := 1, level := 0, xmin := 0, xmax := 0, ymin := 0, ymax := 0,
    tileInfo := { originX := 0, originY := 0, rows := 256, cols := 256 } }

/-- C4 (code bug evidence): hiding a visible attached layer whose canvas holds
the nonzero content [9,9,9,9] flips display and visible off but leaves the
pixel content untouched -- _clear's !this.visible guard fires because hide set
this.visible = false just before calling it -- while every subsequent update
notification dispatches nothing. -/
theorem hide_leaves_surface_and_suppresses_updates :
    ((hide { visible := true, element := some { displayBlock := true, content := [9, 9, 9, 9] } }).element
      = some { displayBlock := false, content := [9, 9, 9, 9] })
    ∧ ((hide { visible := true, element := some { displayBlock := true, content := [9, 9, 9, 9] } }).visible
      = false)
    ∧ (∀ m : MapView,
        _update (hide { visible := true, element := some { displayBlock := true, content := [9, 9, 9, 9] } }) m
          = []) :=
  ⟨rfl, rfl, fun m => rfl⟩

/-- C5 counterexample: showing the attached hidden layer layer0 (canvas content
[9,9,9,9]) leaves the surface content exactly as it was -- show calls only
_update, never _clear -- so no clear-then-update cycle runs. -/
theorem show_does_not_clear_surface :
    ((show' layer0 mview0).1.element.map Canvas.content = some [9, 9, 9, 9])
    ∧ ((show' layer0 mview0).1.element.map Canvas.content
        ≠ some (List.replicate canvas0.content.length 0)) := by
  refine ⟨rfl, ?_⟩
  intro hc
  simp [layer0, canvas0, show', _update] at hc

/-- C5 amended: show on an attached layer sets display block and visible true,
leaves the surface content unchanged (no clear), and triggers the tile update:
the dispatched batch is exactly _update of the now-visible layer, i.e.
getTileStats over the extent's column/row bounds (rowMin from ymax, rowMax
from ymin). -/
theorem show_spec_amended (l : LayerObj) (c : Canvas) (m : MapView)
    (h : l.element = some c) :
    ((show' l m).1.visible = true)
    ∧ ((show' l m).1.element = some { c with displayBlock := true })
    ∧ ((show' l m).1.element.map Canvas.content = some c.content)
    ∧ ((show' l m).2 = _update (show' l m).1 m)
    ∧ ((show' l m).2 =
        getTileStats (getTileColumn m.tileInfo m.level m.xmin m.resolution)
          (getTileColumn m.tileInfo m.level m.xmax m.resolution)
          (getTileRow m.tileInfo m.level m.ymax m.resolution)
          (getTileRow m.tileInfo m.level m.ymin m.resolution) m.level) := by
  obtain ⟨vis, el⟩ := l
  have h' : el = some c := h
  subst h'
  exact ⟨rfl, rfl, rfl, rfl, rfl⟩

theorem show_spec_amended_witness :
    (layer0.element = some canvas0)
    ∧ ((show' layer0 mview0).1.visible = true) :=
  ⟨rfl, (show_spec_amended layer0 canvas0 mview0 rfl).1⟩

/-- C8: a tile fetch that settles with any status other than 200 (including
status 0 from a transport error) makes the onreadystatechange callback do
nothing: no decode, no draw request, no surfaced error. -/
theorem getTile_drops_non200 (readyState status : Nat) (level row col : Int)
    (h : status ≠ 200) :
    getTileOnReadyStateChange readyState status level row col = none := by
  have hs : (status == 200) = false := beq_eq_false_iff_ne.mpr h
  simp only [getTileOnReadyStateChange]
  simp [hs]

theorem getTile_drops_non200_witness :
    ((404 : Nat) ≠ 200) ∧ getTileOnReadyStateChange 4 404 3 1 2 = none :=
  ⟨by decide, getTile_drops_non200 4 404 3 1 2 (by decide)⟩

/-- C9: this.visible = options.visible || true makes every constructed layer
visible, even when options.visible is explicitly false; a hidden construction
is impossible. -/
theorem constructor_visible_always_true :
    (∀ ov : Option Bool, (constructorInit ov).visible = true)
    ∧ ((constructorInit (some false)).visible = true) := by
  refine ⟨?_, rfl⟩
  intro ov
  cases ov with
  | none => rfl
  | some v => cases v <;> rfl
